import Mathlib

/-!
Shallow embedding of the frontend Chat Client Gateway of the
BundesFAQ-Chatbot repository (`frontend/src/api/api.ts`), together with
theorems settling the spec's claims about it.

Modelling conventions:
* Each gateway function is embedded as a pure Lean function from an explicit
  "fetch outcome" (the single network interaction the function performs) to
  an `Except JsError _` result.  `Except.error` models a rejected promise /
  thrown exception escaping the function; `Except.ok` models a normal return.
* JSON bodies arrive already parsed: `response.json()` is modelled as an
  `Except JsError α` field of the outcome (`.error` = malformed body, parse
  rejection).  TypeScript casts (`as Config`, `as ChatAppResponse`) are
  unchecked at runtime and are modelled as plain field access.
* `fetch` resolves (does not throw) on any HTTP status; only a transport
  failure rejects.  `response.ok` is `200 ≤ status ≤ 299`.
* Machine strings are Lean `String`s; where proofs need induction we work on
  the underlying `List Char` (`String.data`).
-/

/-- A JavaScript exception value: either an `Error` carrying a message
(`throw Error(msg)` / a rejected fetch), or the `TypeError` raised by
accessing a property of `undefined`. -/
inductive JsError : Type where
  | error (message : String)
  | typeError
deriving DecidableEq, Repr

/-- Outcome of the single `fetch` a gateway function performs: either the
fetch promise rejects (network/transport failure), or it resolves with an
HTTP status, a status text, and a body whose `json()` parse either succeeds
with a value of the endpoint's type or rejects. -/
inductive FetchOutcome (α : Type) : Type where
  | transportFailure (e : JsError)
  | response (status : Nat) (statusText : String) (body : Except JsError α)

/-- The WHATWG `Response.ok` flag: status in the inclusive range 200–299. -/
def fetchOk (status : Nat) : Bool :=
  200 ≤ status && status ≤ 299

/-- The repository's `BACKEND_URI` constant (empty string: same-origin). -/
def BACKEND_URI : String := ""

/-- One conversation message (`role`, `content`); shape per the data model
(the `models.ts` module itself is not part of the supplied sources). -/
structure ChatMessage : Type where
  content : String
  role : String
deriving DecidableEq, Repr

/-- A chat request: the ordered message sequence plus the opaque session
token.  Only `messages` is inspected by the gateway code. -/
structure ChatAppRequest : Type where
  messages : List ChatMessage
  session_state : Option String := none
deriving DecidableEq, Repr

/-- The `Config` feature-flag mapping, with exactly the fields the mock
config literal in `configApi` assigns. -/
structure Config : Type where
  defaultReasoningEffort : String
  showMultimodalOptions : Bool
  showSemanticRankerOption : Bool
  showQueryRewritingOption : Bool
  showReasoningEffortOption : Bool
  streamingEnabled : Bool
  showVectorOption : Bool
  showUserUpload : Bool
  showLanguagePicker : Bool
  showSpeechInput : Bool
  showSpeechOutputBrowser : Bool
  showSpeechOutputAzure : Bool
  showChatHistoryBrowser : Bool
  showChatHistoryCosmos : Bool
  showAgenticRetrievalOption : Bool
  ragSearchTextEmbeddings : Bool
  ragSearchImageEmbeddings : Bool
  ragSendTextSources : Bool
  ragSendImageSources : Bool
deriving DecidableEq, Repr

/-- The hard-coded mock `Config` literal returned by `configApi`'s catch
block, field for field from the source. -/
def mockConfig : Config :=
  { defaultReasoningEffort := "medium"
    showMultimodalOptions := false
    showSemanticRankerOption := true
    showQueryRewritingOption := true
    showReasoningEffortOption := false
    streamingEnabled := true
    showVectorOption := true
    showUserUpload := true
    showLanguagePicker := true
    showSpeechInput := false
    showSpeechOutputBrowser := false
    showSpeechOutputAzure := false
    showChatHistoryBrowser := true
    showChatHistoryCosmos := false
    showAgenticRetrievalOption := false
    ragSearchTextEmbeddings := true
    ragSearchImageEmbeddings := false
    ragSendTextSources := true
    ragSendImageSources := false }

/-- `configApi`: GETs `/config` and returns `(await response.json()) as
Config` — with no status check — and on any exception in the try block
(rejected fetch or rejected `json()`) returns the mock config literal. -/
def configApi (outcome : FetchOutcome Config) : Except JsError Config :=
  let tryResult : Except JsError Config :=
    match outcome with
    | .transportFailure e => .error e
    | .response _status _statusText body => body
  match tryResult with
  | .ok c => .ok c
  | .error _ => .ok mockConfig

/-- A `message`/`delta` entry of a chat response (`content`, `role`). -/
structure ResponseMessage : Type where
  content : String
  role : String
deriving DecidableEq, Repr

/-- One `thoughts` entry (`title`, `description`). -/
structure Thought : Type where
  title : String
  description : String
deriving DecidableEq, Repr

/-- The `data_points` record: source snippets, image refs, citations. -/
structure DataPoints : Type where
  text : List String
  images : List String
  citations : List String
deriving DecidableEq, Repr

/-- The `context` record of a chat response. -/
structure ResponseContext : Type where
  data_points : DataPoints
  followup_questions : Option (List String)
  thoughts : List Thought
deriving DecidableEq, Repr

/-- `ChatAppResponse`: assistant message, streaming delta, context,
session state. -/
structure ChatAppResponse : Type where
  message : ResponseMessage
  delta : ResponseMessage
  context : ResponseContext
  session_state : Option String
deriving DecidableEq, Repr

/-- `ChatAppResponseOrError`: the parsed `/ask` body.  It optionally carries
an explicit `error` field; `asResponse` is what the unchecked TypeScript cast
`parsedResponse as ChatAppResponse` yields for the same object. -/
structure ChatAppResponseOrError : Type where
  error : Option String
  asResponse : ChatAppResponse
deriving DecidableEq, Repr

/-- JavaScript truthiness of an optional string field: `undefined`/`null`
and the empty string are falsy. -/
def truthyStr (s : Option String) : Bool :=
  match s with
  | none => false
  | some str => !str.isEmpty

/-- The leading literal of the mock `/ask` answer text, up to the quoted
last-message content. -/
def askMockContentHead : String :=
  "This is a mock response to your question: \""

/-- The trailing literal of the mock `/ask` answer text, after the quoted
last-message content. -/
def askMockContentTail : String :=
  "\"\n\nThe BundesFAQ Chatbot backend is not currently running. To get real responses about German federal laws and regulations, you'll need to:\n\n1. Set up and start your backend server\n2. Configure the API endpoints properly\n3. Connect to Azure OpenAI or another LLM service\n\nFor now, this frontend is working in demo mode."

/-- The mock `ChatAppResponse` literal `askApi` fabricates around the last
request message, field for field from the source's catch block. -/
def askMockResponse (lastMessage : ChatMessage) : ChatAppResponse :=
  { message :=
      { content := askMockContentHead ++ lastMessage.content ++ askMockContentTail
        role := "assistant" }
    delta := { content := "", role := "assistant" }
    context :=
      { data_points := { text := [], images := [], citations := [] }
        followup_questions := some
          [ "How do I set up the backend?"
          , "What APIs need to be implemented?"
          , "How do I connect to Azure OpenAI?" ]
        thoughts :=
          [ { title := "Mock Response"
            , description := "Backend server not available - displaying demo response" } ] }
    session_state := none }

/-- The body of `askApi`'s catch block: reads
`request.messages[request.messages.length - 1]` (which is `undefined` when
`messages` is empty, so the subsequent `.content` access throws a
`TypeError`) and builds the mock response around it. -/
def askMock (request : ChatAppRequest) : Except JsError ChatAppResponse :=
  match request.messages.getLast? with
  | none => .error .typeError
  | some lastMessage => .ok (askMockResponse lastMessage)

/-- `askApi`: POSTs the request to `/ask`; inside the try block it throws on
`status > 299 || !response.ok`, throws `Error(parsedResponse.error)` when the
parsed body's `error` field is truthy, and otherwise returns the body as a
`ChatAppResponse`.  The enclosing catch swallows EVERY exception thrown in
the try block — including the explicit-error throw — and falls back to the
mock response. -/
def askApi (request : ChatAppRequest) (outcome : FetchOutcome ChatAppResponseOrError) :
    Except JsError ChatAppResponse :=
  let tryResult : Except JsError ChatAppResponse :=
    match outcome with
    | .transportFailure e => .error e
    | .response status _statusText body =>
      if status > 299 || !(fetchOk status) then
        .error (.error ("Request failed with status " ++ toString status))
      else
        match body with
        | .error e => .error e
        | .ok parsed =>
          if truthyStr parsed.error then
            .error (.error (parsed.error.getD ""))
          else
            .ok parsed.asResponse
  match tryResult with
  | .ok r => .ok r
  | .error _ => askMock request

/-- JavaScript `String.prototype.split(' ')` on the underlying character
list: splits at every single space character, keeping empty fragments. -/
def splitOnSpaceChars : List Char → List (List Char)
  | [] => [[]]
  | c :: rest =>
    if c = ' ' then [] :: splitOnSpaceChars rest
    else
      match splitOnSpaceChars rest with
      | [] => [[c]]
      | g :: gs => (c :: g) :: gs

/-- `mockResponse.split(' ')` at the `String` level. -/
def jsSplitSpace (s : String) : List String :=
  (splitOnSpaceChars s.data).map String.mk

/-- The leading literal of the mock streaming notice text, up to the quoted
last-message content. -/
def chatMockHead : String :=
  "This is a mock streaming response to: \""

/-- The trailing literal of the mock streaming notice text. -/
def chatMockTail : String :=
  "\"\n\nThe BundesFAQ Chatbot backend is not currently running. This frontend is working in demo mode.\n\nTo get real responses about German federal laws and regulations, you'll need to set up your backend server."

/-- The full mock streaming notice text (`mockResponse` in the source),
built around the last message's content. -/
def chatMockText (lastContent : String) : String :=
  chatMockHead ++ lastContent ++ chatMockTail

/-- The per-token chunk object the mock stream enqueues: the token plus a
trailing space as both `message.content` and `delta.content`, assistant
role, empty data points, null followup questions, empty thoughts. -/
def mkStreamChunk (token : String) : ChatAppResponse :=
  { message := { content := token ++ " ", role := "assistant" }
    delta := { content := token ++ " ", role := "assistant" }
    context :=
      { data_points := { text := [], images := [], citations := [] }
        followup_questions := none
        thoughts := [] }
    session_state := none }

/-- An observable event of the fabricated stream: a chunk enqueued on the
controller, or the controller being closed. -/
inductive StreamEvent : Type where
  | enqueue (chunk : ChatAppResponse)
  | close
deriving DecidableEq, Repr

/-- The `sendChunk` self-rescheduling loop, from chunk index `i` on: while
`i < chunks.length` it enqueues chunk `i` and reschedules itself for the
next index; once `i` reaches the end it closes the controller. -/
def emitFrom (chunks : List String) (i : Nat) : List StreamEvent :=
  if h : i < chunks.length then
    .enqueue (mkStreamChunk (chunks.get ⟨i, h⟩)) :: emitFrom chunks (i + 1)
  else
    [.close]
termination_by chunks.length - i

/-- The complete ordered event sequence of the fabricated stream for a given
token list (`sendChunk` started at index 0). -/
def streamTrace (chunks : List String) : List StreamEvent :=
  emitFrom chunks 0

/-- The concatenation (as a character list) of the `delta.content` fields of
the enqueued chunks of an event sequence, in emission order. -/
def traceDeltaChars (events : List StreamEvent) : List Char :=
  events.flatMap fun e =>
    match e with
    | .enqueue chunk => chunk.delta.content.data
    | .close => []

/-- What `chatApi` resolves with: on the network path the raw `fetch`
response, passed through unmodified (any status); on the fallback path a
fabricated NDJSON stream over the given token list. -/
inductive ChatApiResult : Type where
  | network (status : Nat) (statusText : String) (body : Except JsError ChatAppResponse)
  | mockStream (chunks : List String)

/-- `chatApi`: POSTs to `/chat` or `/chat/stream` and returns the live
response object unmodified.  On transport failure it reads
`request.messages[request.messages.length - 1]` (a `TypeError` when
`messages` is empty), splits the mock notice text on spaces and returns the
fabricated stream over those tokens. -/
def chatApi (request : ChatAppRequest) (_shouldStream : Bool)
    (outcome : FetchOutcome ChatAppResponse) : Except JsError ChatApiResult :=
  match outcome with
  | .response status statusText body => .ok (.network status statusText body)
  | .transportFailure _ =>
    match request.messages.getLast? with
    | none => .error .typeError
    | some lastMessage =>
      .ok (.mockStream (jsSplitSpace (chatMockText lastMessage.content)))

/-- Runtime state of the fabricated stream and its pacing timer: next chunk
index, whether the stream is still readable (not cancelled), whether a
`setTimeout` callback is pending, the indices successfully enqueued so far,
and whether the controller was closed. -/
structure StreamMachine : Type where
  i : Nat
  readable : Bool
  timerPending : Bool
  emitted : List Nat
  closed : Bool
deriving DecidableEq, Repr

/-- Expiry of the pending `setTimeout`, running `sendChunk` once.  With
chunks remaining and the stream readable it enqueues and reschedules; with
the stream cancelled the `controller.enqueue` call throws, so the `i++` and
`setTimeout` lines never run and nothing further is scheduled; with no
chunks remaining it calls `controller.close()` (which only succeeds while
readable). -/
def fireTimer (n : Nat) (s : StreamMachine) : StreamMachine :=
  if s.timerPending then
    if s.i < n then
      if s.readable then
        { s with i := s.i + 1, emitted := s.emitted ++ [s.i], timerPending := true }
      else
        { s with timerPending := false }
    else
      { s with timerPending := false, closed := s.readable }
  else s

/-- Consumer-side cancellation of the stream.  The source's underlying
source object passes only `start` to the `ReadableStream` constructor — no
`cancel` handler, and the timeout id is never stored — so cancelling merely
flips the stream out of its readable state; no timer is cleared. -/
def cancelStream (s : StreamMachine) : StreamMachine :=
  { s with readable := false }

/-- The machine state right after `start(controller)` ran `sendChunk()`
synchronously for a stream of `n` tokens. -/
def startStream (n : Nat) : StreamMachine :=
  fireTimer n { i := 0, readable := true, timerPending := true, emitted := [], closed := false }

/-- Outcome of the single `fetch` of `getSpeechApi`: rejection, or a
response with a status and (when read) a body blob. -/
inductive SpeechOutcome (Blob : Type) : Type where
  | transportFailure (e : JsError)
  | response (status : Nat) (blob : Blob)

/-- `getSpeechApi`: POSTs the text to `/speech`; status 200 yields an object
URL for the body blob, status 400 and every other status yield `null`.  The
promise chain has no rejection handler, so a transport failure propagates to
the caller. -/
def getSpeechApi {Blob : Type} (createObjectURL : Blob → String)
    (outcome : SpeechOutcome Blob) : Except JsError (Option String) :=
  match outcome with
  | .transportFailure e => .error e
  | .response status blob =>
    if status == 200 then .ok (some (createObjectURL blob))
    else if status == 400 then .ok none
    else .ok none

/-- The `/upload` endpoint's acknowledgement object (its precise field set
lives in the absent `models.ts`; only pass-through behaviour matters). -/
structure SimpleAPIResponse : Type where
  message : String
deriving DecidableEq, Repr

/-- `uploadFileApi`: POSTs the form data to `/upload`; on `!response.ok` it
throws `Error("Uploading files failed: " + statusText)`, otherwise it
returns the parsed body.  Nothing is caught: transport failures and parse
failures propagate. -/
def uploadFileApi (outcome : FetchOutcome SimpleAPIResponse) :
    Except JsError SimpleAPIResponse :=
  match outcome with
  | .transportFailure e => .error e
  | .response status statusText body =>
    if !(fetchOk status) then
      .error (.error ("Uploading files failed: " ++ statusText))
    else
      body

/-- The JavaScript `\s` / trim whitespace class, restricted to the
characters this codebase can meet (ASCII whitespace, NBSP, BOM, and the
Unicode line/paragraph separators). -/
def jsWhitespaceChar (c : Char) : Bool :=
  c == ' ' || c == '\t' || c == '\n' || c == '\u000B' || c == '\u000C' ||
    c == '\r' || c == ' ' || c == '﻿' || c == ' ' || c == ' '

/-- The JavaScript line terminators, which `.` in a regex never matches. -/
def lineTerminatorChar (c : Char) : Bool :=
  c == '\n' || c == '\r' || c == ' ' || c == ' '

/-- After the `\(` of the regex `\s*\(.*?\)\s*$`: scans for a `)` whose
characters before it contain no line terminator (the `.*?` part) and whose
characters after it are all whitespace (the `\s*$` part). -/
def closeParenScan : List Char → Bool
  | [] => false
  | c :: rest =>
    (c == ')' && rest.all jsWhitespaceChar) || (!lineTerminatorChar c && closeParenScan rest)

/-- Whether a match of `\s*\(.*?\)\s*$` starts exactly at the head of the
given suffix: optional whitespace, an opening parenthesis, then a viable
closing parenthesis followed only by whitespace up to the end. -/
def annotMatchHere : List Char → Bool
  | [] => false
  | c :: rest =>
    (c == '(' && closeParenScan rest) || (jsWhitespaceChar c && annotMatchHere rest)

/-- `citation.replace(/\s*\(.*?\)\s*$/, "")`: since every match of the
anchored pattern extends to the end of the string, replacing the leftmost
match with the empty string keeps exactly the characters before the
leftmost position at which a match starts. -/
def stripAnnot : List Char → List Char
  | [] => []
  | c :: rest => if annotMatchHere (c :: rest) then [] else c :: stripAnnot rest

/-- JavaScript `String.prototype.trim()`: removes leading and trailing
whitespace/line terminators. -/
def jsTrim (l : List Char) : List Char :=
  ((l.dropWhile jsWhitespaceChar).reverse.dropWhile jsWhitespaceChar).reverse

/-- `getCitationFilePath`: strips a trailing parenthesized annotation,
trims, and joins the remainder onto the fixed content-serving path. -/
def getCitationFilePath (citation : String) : String :=
  BACKEND_URI ++ "/content/" ++ String.mk (jsTrim (stripAnnot citation.data))

/-- Character-list join of token groups with a single space between
consecutive groups (the inverse shape of a space split). -/
def joinSpaceSep : List (List Char) → List Char
  | [] => []
  | [g] => g
  | g :: gs => g ++ ' ' :: joinSpaceSep gs

theorem string_data_append (a b : String) : (a ++ b).data = a.data ++ b.data := by
  cases a; cases b; rfl

theorem splitOnSpaceChars_ne_nil : ∀ l : List Char, splitOnSpaceChars l ≠ []
  | [] => by simp [splitOnSpaceChars]
  | c :: rest => by
    simp only [splitOnSpaceChars]
    split
    · simp
    · split
      · simp
      · simp

theorem joinSpaceSep_split (l : List Char) : joinSpaceSep (splitOnSpaceChars l) = l := by
  induction l with
  | nil => rfl
  | cons c rest ih =>
    by_cases hc : c = ' '
    · subst hc
      simp only [splitOnSpaceChars, if_pos rfl]
      obtain ⟨g, gs, hg⟩ := List.exists_cons_of_ne_nil (splitOnSpaceChars_ne_nil rest)
      rw [hg]
      rw [hg] at ih
      show ([] : List Char) ++ ' ' :: joinSpaceSep (g :: gs) = ' ' :: rest
      simpa using ih
    · simp only [splitOnSpaceChars, if_neg hc]
      obtain ⟨g, gs, hg⟩ := List.exists_cons_of_ne_nil (splitOnSpaceChars_ne_nil rest)
      rw [hg]
      rw [hg] at ih
      cases gs with
      | nil =>
        show c :: g = c :: rest
        rw [← ih]
        rfl
      | cons g2 gs2 =>
        show (c :: g) ++ ' ' :: joinSpaceSep (g2 :: gs2) = c :: rest
        rw [← ih]
        rfl

theorem flatMap_append_space (g : List Char) (gs : List (List Char)) :
    (g :: gs).flatMap (fun x => x ++ [' ']) = joinSpaceSep (g :: gs) ++ [' '] := by
  induction gs generalizing g with
  | nil => simp [joinSpaceSep]
  | cons g2 gs2 ih =>
    have step : joinSpaceSep (g :: g2 :: gs2) = g ++ ' ' :: joinSpaceSep (g2 :: gs2) := rfl
    rw [step]
    have ih2 := ih g2
    simp only [List.flatMap_cons] at ih2 ⊢
    rw [ih2]
    simp [List.append_assoc]

theorem emitFrom_eq (chunks : List String) (i : Nat) :
    emitFrom chunks i =
      ((chunks.drop i).map fun t => StreamEvent.enqueue (mkStreamChunk t)) ++ [.close] := by
  by_cases h : i < chunks.length
  · rw [emitFrom, dif_pos h, emitFrom_eq chunks (i + 1), List.drop_eq_getElem_cons h]
    rfl
  · rw [emitFrom, dif_neg h, List.drop_eq_nil_of_le (Nat.le_of_not_lt h)]
    rfl
termination_by chunks.length - i

theorem streamTrace_shape (chunks : List String) :
    streamTrace chunks = (chunks.map fun t => StreamEvent.enqueue (mkStreamChunk t)) ++ [.close] := by
  rw [streamTrace, emitFrom_eq]
  rfl

theorem traceDelta_jsSplitSpace (s : String) :
    traceDeltaChars (streamTrace (jsSplitSpace s)) = s.data ++ [' '] := by
  rw [streamTrace_shape, traceDeltaChars]
  have hmap : ∀ cs : List String,
      (cs.map fun t => StreamEvent.enqueue (mkStreamChunk t)).flatMap
          (fun e => match e with
            | .enqueue chunk => chunk.delta.content.data
            | .close => []) =
        cs.flatMap fun t => t.data ++ [' '] := by
    intro cs
    induction cs with
    | nil => rfl
    | cons t ts ih =>
      simp only [List.map_cons, List.flatMap_cons, ih]
      have : (mkStreamChunk t).delta.content.data = t.data ++ [' '] := by
        show (t ++ " ").data = t.data ++ [' ']
        rw [string_data_append]
      rw [this]
  rw [List.flatMap_append, hmap]
  have hmk : (jsSplitSpace s).flatMap (fun t => t.data ++ [' ']) =
      (splitOnSpaceChars s.data).flatMap fun g => g ++ [' '] := by
    rw [jsSplitSpace]
    induction splitOnSpaceChars s.data with
    | nil => rfl
    | cons g gs ih => simp only [List.map_cons, List.flatMap_cons, ih]
  rw [hmk]
  obtain ⟨g, gs, hg⟩ := List.exists_cons_of_ne_nil (splitOnSpaceChars_ne_nil s.data)
  rw [hg, flatMap_append_space, ← hg, joinSpaceSep_split]
  simp

theorem stripAnnot_left_segment : ∀ l : List Char, ∃ rest, l = stripAnnot l ++ rest
  | [] => ⟨[], rfl⟩
  | c :: rest => by
    by_cases h : annotMatchHere (c :: rest) = true
    · exact ⟨c :: rest, by simp [stripAnnot, h]⟩
    · obtain ⟨r, hr⟩ := stripAnnot_left_segment rest
      exact ⟨r, by simp only [stripAnnot, h, if_false]; exact congrArg (c :: ·) hr⟩

/-- Concrete `/ask` request used to exercise the explicit-backend-error path:
a single user message. -/
def c1Request : ChatAppRequest :=
  { messages := [{ content := "hi", role := "user" }] }

/-- Concrete `/ask` outcome: HTTP 200 whose JSON body carries the explicit
error field `{error: "X"}` (the cast view of that body is inert). -/
def c1Outcome : FetchOutcome ChatAppResponseOrError :=
  .response 200 "OK"
    (.ok
      { error := some "X"
        asResponse :=
          { message := { content := "", role := "" }
            delta := { content := "", role := "" }
            context :=
              { data_points := { text := [], images := [], citations := [] }
                followup_questions := none
                thoughts := [] }
            session_state := none } })

/-- C1: the spec requires an explicit backend error `{error: "X"}` in an
HTTP 200 `/ask` body to propagate as a thrown failure containing `"X"` and
to bypass the mock.  The code does throw `Error(parsedResponse.error)`, but
that throw sits inside the function's own try block, whose catch-all
swallows it and returns the masked mock response instead: evaluating the
embedded `askApi` at this input yields the mock, not the failure. -/
theorem askApi_explicit_error_swallowed_bug :
    askApi c1Request c1Outcome =
      .ok (askMockResponse { content := "hi", role := "user" }) ∧
    askApi c1Request c1Outcome ≠ .error (.error "X") := by
  have h1 : askApi c1Request c1Outcome =
      .ok (askMockResponse { content := "hi", role := "user" }) := rfl
  refine ⟨h1, ?_⟩
  intro h
  rw [h1] at h
  exact Except.noConfusion h

/-- C2: for every request whose message list has a last element, `askApi`
against an unreachable backend returns the mock `ChatAppResponse`, and its
message content contains the exact text of that last message. -/
theorem askApi_unreachable_mock (request : ChatAppRequest) (m : ChatMessage) (e : JsError)
    (hlast : request.messages.getLast? = some m) :
    askApi request (.transportFailure e) = .ok (askMockResponse m) ∧
    ∃ head tail, (askMockResponse m).message.content = head ++ m.content ++ tail := by
  refine ⟨?_, askMockContentHead, askMockContentTail, rfl⟩
  simp [askApi, askMock, hlast]

/-- C2 witness: the theorem instantiated at a concrete one-message request
and a concrete transport failure. -/
theorem askApi_unreachable_mock_witness :
    askApi { messages := [{ content := "Was ist BAfoeG?", role := "user" }] }
        (.transportFailure (.error "ECONNREFUSED")) =
      .ok (askMockResponse { content := "Was ist BAfoeG?", role := "user" }) ∧
    ∃ head tail,
      (askMockResponse { content := "Was ist BAfoeG?", role := "user" }).message.content =
        head ++ "Was ist BAfoeG?" ++ tail :=
  askApi_unreachable_mock
    { messages := [{ content := "Was ist BAfoeG?", role := "user" }] }
    { content := "Was ist BAfoeG?", role := "user" }
    (.error "ECONNREFUSED") rfl

/-- C4 counterexample: `configApi` never inspects the HTTP status, so a
non-2xx response whose body parses as JSON is returned as-is — here a 500
response body distinct from the mock config — refuting the claim that every
non-2xx failure yields the fixed default literal. -/
theorem configApi_nonOk_body_passthrough_cx :
    configApi (.response 500 "Internal Server Error"
        (.ok { mockConfig with streamingEnabled := false })) =
      .ok { mockConfig with streamingEnabled := false } ∧
    ({ mockConfig with streamingEnabled := false } : Config) ≠ mockConfig := by
  refine ⟨rfl, ?_⟩
  intro h
  have hs := congrArg Config.streamingEnabled h
  simp [mockConfig] at hs

/-- C4 amended: `configApi` masks a transport failure or a malformed
response body with the fixed mock config and never fails outward, but a
response whose body parses — any HTTP status, 2xx or not — is returned
as-is, status unchecked. -/
theorem configApi_masking_amended :
    (∀ e : JsError, configApi (.transportFailure e) = .ok mockConfig) ∧
    (∀ (status : Nat) (statusText : String) (e : JsError),
      configApi (.response status statusText (.error e)) = .ok mockConfig) ∧
    (∀ (status : Nat) (statusText : String) (c : Config),
      configApi (.response status statusText (.ok c)) = .ok c) :=
  ⟨fun _ => rfl, fun _ _ _ => rfl, fun _ _ _ => rfl⟩

/-- C7: against an unreachable backend `configApi` returns the fixed mock
config — whose `streamingEnabled` and `showVectorOption` flags are both
`true` — and the returned value is the same on every such invocation. -/
theorem configApi_unreachable_defaults :
    (∀ e : JsError, configApi (.transportFailure e) = .ok mockConfig) ∧
    mockConfig.streamingEnabled = true ∧
    mockConfig.showVectorOption = true ∧
    (∀ e e' : JsError,
      configApi (.transportFailure e) = configApi (.transportFailure e')) :=
  ⟨fun _ => rfl, rfl, rfl, fun _ _ => rfl⟩

/-- C3 amended: against an unreachable backend `chatApi` returns the
fabricated stream over the space-split notice tokens; its event trace is
exactly one enqueued chunk per token, in source token order, followed by a
single close; and the concatenated `delta.content` characters equal the
notice text followed by ONE TRAILING SPACE (each chunk carries its token
plus a trailing space, so the concatenation overshoots the notice text by
that final space). -/
theorem chatApi_mock_stream_amended (request : ChatAppRequest) (m : ChatMessage) (e : JsError)
    (hlast : request.messages.getLast? = some m) :
    chatApi request true (.transportFailure e) =
      .ok (.mockStream (jsSplitSpace (chatMockText m.content))) ∧
    streamTrace (jsSplitSpace (chatMockText m.content)) =
      ((jsSplitSpace (chatMockText m.content)).map fun t =>
        StreamEvent.enqueue (mkStreamChunk t)) ++ [.close] ∧
    traceDeltaChars (streamTrace (jsSplitSpace (chatMockText m.content))) =
      (chatMockText m.content).data ++ [' '] := by
  refine ⟨?_, streamTrace_shape _, traceDelta_jsSplitSpace _⟩
  simp [chatApi, hlast]

/-- C3 witness: the amended theorem at a concrete one-message request. -/
theorem chatApi_mock_stream_amended_witness :
    chatApi { messages := [{ content := "Hi", role := "user" }] } true
        (.transportFailure (.error "ECONNREFUSED")) =
      .ok (.mockStream (jsSplitSpace (chatMockText "Hi"))) ∧
    streamTrace (jsSplitSpace (chatMockText "Hi")) =
      ((jsSplitSpace (chatMockText "Hi")).map fun t =>
        StreamEvent.enqueue (mkStreamChunk t)) ++ [.close] ∧
    traceDeltaChars (streamTrace (jsSplitSpace (chatMockText "Hi"))) =
      (chatMockText "Hi").data ++ [' '] :=
  chatApi_mock_stream_amended { messages := [{ content := "Hi", role := "user" }] }
    { content := "Hi", role := "user" } (.error "ECONNREFUSED") rfl

/-- C3 counterexample: for the concrete request with last message `"Hi"`,
the concatenation of the fabricated chunks' `delta.content` fields is NOT
equal to the notice text — every chunk appends a trailing space, so the
concatenation carries one extra final space. -/
theorem chatApi_stream_concat_cx :
    traceDeltaChars (streamTrace (jsSplitSpace (chatMockText "Hi"))) ≠
      (chatMockText "Hi").data := by
  rw [traceDelta_jsSplitSpace]
  intro h
  have hlen := congrArg List.length h
  simp at hlen

/-- C5 amended: the underlying source registers no `cancel` handler and
never stores the timeout id, so cancelling the stream does not release the
pending timer: immediately after cancellation the scheduled callback is
still pending; when it fires, its enqueue attempt fails against the
non-readable stream, nothing further is scheduled, no chunk is added, and
from then on the machine is inert. -/
theorem chat_stream_cancel_amended (n : Nat) (hn : 1 ≤ n) :
    (cancelStream (startStream n)).timerPending = true ∧
    (fireTimer n (cancelStream (startStream n))).emitted =
      (cancelStream (startStream n)).emitted ∧
    (fireTimer n (cancelStream (startStream n))).timerPending = false ∧
    fireTimer n (fireTimer n (cancelStream (startStream n))) =
      fireTimer n (cancelStream (startStream n)) := by
  have h0 : (0 : Nat) < n := hn
  have hstart : startStream n =
      { i := 1, readable := true, timerPending := true, emitted := [0], closed := false } := by
    simp [startStream, fireTimer, h0]
  rw [hstart]
  have hcancel :
      cancelStream
          { i := 1, readable := true, timerPending := true, emitted := [0], closed := false } =
        { i := 1, readable := false, timerPending := true, emitted := [0], closed := false } := rfl
  rw [hcancel]
  have hfire :
      fireTimer n
          { i := 1, readable := false, timerPending := true, emitted := [0], closed := false } =
        { i := 1, readable := false, timerPending := false, emitted := [0], closed := false } := by
    by_cases h1 : 1 < n
    · simp [fireTimer, h1]
    · simp [fireTimer, h1]
  rw [hfire]
  refine ⟨rfl, rfl, rfl, ?_⟩
  simp [fireTimer]

/-- C5 witness: the amended theorem at the actual token count of the
fabricated stream for the request with last message `"Hi"`. -/
theorem chat_stream_cancel_amended_witness :
    (cancelStream (startStream (jsSplitSpace (chatMockText "Hi")).length)).timerPending = true ∧
    (fireTimer (jsSplitSpace (chatMockText "Hi")).length
        (cancelStream (startStream (jsSplitSpace (chatMockText "Hi")).length))).emitted =
      (cancelStream (startStream (jsSplitSpace (chatMockText "Hi")).length)).emitted ∧
    (fireTimer (jsSplitSpace (chatMockText "Hi")).length
        (cancelStream (startStream (jsSplitSpace (chatMockText "Hi")).length))).timerPending =
      false ∧
    fireTimer (jsSplitSpace (chatMockText "Hi")).length
        (fireTimer (jsSplitSpace (chatMockText "Hi")).length
          (cancelStream (startStream (jsSplitSpace (chatMockText "Hi")).length))) =
      fireTimer (jsSplitSpace (chatMockText "Hi")).length
        (cancelStream (startStream (jsSplitSpace (chatMockText "Hi")).length)) :=
  chat_stream_cancel_amended (jsSplitSpace (chatMockText "Hi")).length (by decide)

/-- C5 counterexample: cancelling the fabricated stream (for the concrete
request whose last message is `"Hi"`) leaves the pacing timer pending — the
claim that cancellation stops the timer and releases it fails, because the
source registers no cancel handler and never clears the timeout. -/
theorem chat_stream_cancel_pending_cx :
    (cancelStream (startStream (jsSplitSpace (chatMockText "Hi")).length)).timerPending =
      true := by
  decide

/-- C6 counterexample: `getCitationFilePath` additionally trims surrounding
whitespace even when no trailing parenthetical is present, so for the
citation `"doc.pdf "` (trailing space) the result is not the prefix joined
with the citation unchanged. -/
theorem getCitationFilePath_trim_cx :
    getCitationFilePath "doc.pdf " = BACKEND_URI ++ "/content/" ++ "doc.pdf" ∧
    getCitationFilePath "doc.pdf " ≠ BACKEND_URI ++ "/content/" ++ "doc.pdf " := by
  refine ⟨by decide, by decide⟩

/-- C6 amended: `getCitationFilePath` is a pure total string transform that
joins the content prefix with a left segment of the citation (everything
from the start of a trailing parenthesized-annotation match onward is
dropped) additionally trimmed of surrounding whitespace; the two named
examples hold as claimed. -/
theorem getCitationFilePath_amended :
    getCitationFilePath "doc.pdf (page 3)" = BACKEND_URI ++ "/content/" ++ "doc.pdf" ∧
    getCitationFilePath "doc.pdf" = BACKEND_URI ++ "/content/" ++ "doc.pdf" ∧
    (∀ citation : String, ∃ rest : List Char,
      citation.data = stripAnnot citation.data ++ rest) ∧
    (∀ citation : String,
      getCitationFilePath citation =
        BACKEND_URI ++ "/content/" ++ String.mk (jsTrim (stripAnnot citation.data))) := by
  refine ⟨by decide, by decide, fun c => stripAnnot_left_segment c.data, fun c => rfl⟩

/-- C8 counterexample: `getSpeechApi` has no rejection handler, so a
transport failure propagates as an error instead of mapping to the absent
result, refuting the claim that every failure is mapped to absent. -/
theorem getSpeechApi_transport_rejects_cx :
    getSpeechApi (fun _ : Unit => "blob:demo") (.transportFailure (.error "ECONNREFUSED")) =
      .error (.error "ECONNREFUSED") ∧
    getSpeechApi (fun _ : Unit => "blob:demo") (.transportFailure (.error "ECONNREFUSED")) ≠
      .ok none := by
  have h1 : getSpeechApi (fun _ : Unit => "blob:demo")
      (.transportFailure (.error "ECONNREFUSED")) = .error (.error "ECONNREFUSED") := rfl
  refine ⟨h1, ?_⟩
  intro h
  rw [h1] at h
  exact Except.noConfusion h

/-- C8 amended: `getSpeechApi` maps status 200 to an object-URL resource
handle and status 400 as well as every other status to absent, but a
transport failure is NOT mapped to absent — with no rejection handler in
the promise chain it propagates to the caller. -/
theorem getSpeechApi_amended {Blob : Type} (createObjectURL : Blob → String) (b : Blob)
    (status : Nat) (e : JsError) (h200 : status ≠ 200) (h400 : status ≠ 400) :
    getSpeechApi createObjectURL (.response 200 b) = .ok (some (createObjectURL b)) ∧
    getSpeechApi createObjectURL (.response 400 b) = .ok none ∧
    getSpeechApi createObjectURL (.response status b) = .ok none ∧
    getSpeechApi createObjectURL (.transportFailure e) = .error e := by
  refine ⟨rfl, rfl, ?_, rfl⟩
  simp [getSpeechApi, h200, h400]

/-- C8 witness: the amended theorem at status 500 over a unit blob type. -/
theorem getSpeechApi_amended_witness :
    getSpeechApi (fun _ : Unit => "blob:demo") (.response 200 ()) = .ok (some "blob:demo") ∧
    getSpeechApi (fun _ : Unit => "blob:demo") (.response 400 ()) = .ok none ∧
    getSpeechApi (fun _ : Unit => "blob:demo") (.response 500 ()) = .ok none ∧
    getSpeechApi (fun _ : Unit => "blob:demo") (.transportFailure (.error "down")) =
      .error (.error "down") :=
  getSpeechApi_amended (fun _ : Unit => "blob:demo") () 500 (.error "down")
    (by decide) (by decide)

/-- C9: against any non-2xx response `uploadFileApi` throws the named
failure `Uploading files failed: <status text>` — naming the failed
operation and carrying the HTTP status text — and in particular returns no
substitute `SimpleAPIResponse`. -/
theorem uploadFileApi_nonOk_throws (status : Nat) (statusText : String)
    (body : Except JsError SimpleAPIResponse) (h : fetchOk status = false) :
    uploadFileApi (.response status statusText body) =
      .error (.error ("Uploading files failed: " ++ statusText)) := by
  simp [uploadFileApi, h]

/-- C9 witness: the theorem at HTTP 500 with status text
`Internal Server Error` and a parseable body that must not be returned. -/
theorem uploadFileApi_nonOk_throws_witness :
    uploadFileApi (.response 500 "Internal Server Error" (.ok { message := "ok" })) =
      .error (.error ("Uploading files failed: " ++ "Internal Server Error")) :=
  uploadFileApi_nonOk_throws 500 "Internal Server Error" (.ok { message := "ok" }) (by decide)

/-- C10: with an empty message list, the mock-fallback paths of both
`askApi` and `chatApi` read the last element of `messages` — `undefined` —
and the subsequent `.content` access throws, so on a transport failure both
operations error out with a `TypeError` instead of returning the masked
mock. -/
theorem empty_messages_mock_path_throws (request : ChatAppRequest) (e : JsError)
    (hempty : request.messages = []) :
    askApi request (.transportFailure e) = .error .typeError ∧
    chatApi request true (.transportFailure e) = .error .typeError := by
  constructor
  · simp [askApi, askMock, hempty]
  · simp [chatApi, hempty]

/-- C10 witness: the theorem at the concrete empty-messages request. -/
theorem empty_messages_mock_path_throws_witness :
    askApi { messages := [] } (.transportFailure (.error "down")) = .error .typeError ∧
    chatApi { messages := [] } true (.transportFailure (.error "down")) = .error .typeError :=
  empty_messages_mock_path_throws { messages := [] } (.error "down") rfl
